import Mathlib

/-!
Verification of the UI state layer of the claude-code-tool-manager
repository (Svelte stores, release-notification flow, console-log
interceptor, markdown renderer).

Modelling conventions, shared by every embedding below:
* Values thrown by JavaScript code are modelled by `JsValue`: either a
  plain string or an Error object carrying a name and a message.
* An asynchronous backend call (Tauri invoke, HTTP fetch) is modelled by
  passing its outcome in as an explicit `Except JsValue α` argument, or,
  for `fetch`, through an environment mapping URLs to outcomes.  A store
  method becomes a pure function from the pre-state and the backend
  outcomes to the post-state; the throw/return behaviour of the method
  itself is the `Except JsValue α` component of its result.
* The single-threaded event loop lets each method run to completion, so a
  method is a pure state transformer.
-/

/-- A JavaScript value as it appears in throw/catch positions: a plain
string or an Error object (name, message). -/
inductive JsValue where
  | str : String → JsValue
  | errObj : String → String → JsValue
deriving DecidableEq, Repr

/-- JavaScript coercion String(e): Error objects stringify as
"name: message" (just "name" when the message is empty). -/
def jsString : JsValue → String
  | .str s => s
  | .errObj n m => if m = "" then n else n ++ ": " ++ m

/-- The idiom from whatsNew.svelte.ts: a thrown value is rendered as
e.message when it is an Error, and as the given default otherwise. -/
def catchMessage : JsValue → String → String
  | .errObj _ m, _ => m
  | .str _, d => d

/-- The MCP transport kinds of the Mcp type (stdio, sse, http). -/
inductive McpType where
  | stdio | sse | http
deriving DecidableEq, Repr

/-- The selectedType field of the MCP library store:
`all | stdio | sse | http`. -/
inductive McpTypeFilter where
  | all | stdio | sse | http
deriving DecidableEq, Repr

/-- The string comparison m.type === this.selectedType from
filteredMcps (a transport kind never equals the string `all`). -/
def typeEqFilter : McpType → McpTypeFilter → Bool
  | .stdio, .stdio => true
  | .sse, .sse => true
  | .http, .http => true
  | _, _ => false

/-- An MCP library entity.  The fields are the ones the store code reads
or writes (id, name, description, type, tags, isFavorite,
isEnabledGlobal); id is the numeric identifier unique within the
collection. -/
structure Mcp where
  id : Nat
  name : String
  description : Option String
  type : McpType
  tags : Option (List String)
  isFavorite : Bool
  isEnabledGlobal : Bool
deriving DecidableEq, Repr

/-- The CreateMcpRequest payload. The store code only forwards it to the
backend, so its fields beyond the name are irrelevant here. -/
structure CreateMcpRequest where
  name : String
deriving DecidableEq, Repr

/-- String.prototype.toLowerCase (per-character lowercasing; the inputs
of interest are ASCII, where Char.toLower agrees with JavaScript). -/
def jsToLower (s : String) : String := ⟨s.data.map Char.toLower⟩

/-- needle occurs as a contiguous run inside hay. -/
def listIncludes (hay needle : List Char) : Bool :=
  hay.tails.any (fun t => needle.isPrefixOf t)

/-- String.prototype.includes. -/
def jsIncludes (hay needle : String) : Bool :=
  listIncludes hay.data needle.data

/-- The search filter closure of filteredMcps: the (already lowercased)
query matches the name, description, or some tag of the entity,
case-insensitively; missing description/tags (optional chaining) match
nothing. -/
def searchMatches (query : String) (m : Mcp) : Bool :=
  jsIncludes (jsToLower m.name) query ||
  (match m.description with
   | some d => jsIncludes (jsToLower d) query
   | none => false) ||
  (match m.tags with
   | some tags => tags.any (fun t => jsIncludes (jsToLower t) query)
   | none => false)

/-- The sort comparator of filteredMcps: favorites first, then
localeCompare on names.  localeCompare is environment-defined, so it is
passed in as lc. -/
def mcpCompare (lc : String → String → Int) (a b : Mcp) : Int :=
  if a.isFavorite ≠ b.isFavorite then
    (if a.isFavorite then -1 else 1)
  else lc a.name b.name

/-- The comparator as a boolean "a may precede b" relation; Array.sort
with a consistent comparator produces an order sorted by it. -/
def mcpSortLe (lc : String → String → Int) (a b : Mcp) : Bool :=
  decide (mcpCompare lc a b ≤ 0)

/-- The reactive fields of the McpLibraryState class
(mcpLibrary.svelte.ts). -/
structure McpLibraryState where
  mcps : List Mcp
  isLoading : Bool
  error : Option String
  searchQuery : String
  selectedType : McpTypeFilter
deriving DecidableEq, Repr

namespace McpLibraryState

/-- The derived view filteredMcps: search filter (skipped when the query
is falsy, i.e. empty), then type filter (skipped on `all`), then sort by
favorites-first/localeCompare.  Array.prototype.sort is modelled as a
stable merge sort, which matches its behaviour for a consistent
comparator. -/
def filteredMcps (lc : String → String → Int) (s : McpLibraryState) : List Mcp :=
  let result1 :=
    if s.searchQuery ≠ "" then
      let query := jsToLower s.searchQuery
      s.mcps.filter (fun m => searchMatches query m)
    else s.mcps
  let result2 :=
    if s.selectedType ≠ McpTypeFilter.all then
      result1.filter (fun m => typeEqFilter m.type s.selectedType)
    else result1
  result2.mergeSort (mcpSortLe lc)

/-- async load(): sets isLoading, clears error, assigns the backend
result on success, stores String(e) in error on failure, and clears
isLoading in the finally block.  The Except component is the outcome
of the method itself (it never rethrows). -/
def load (s : McpLibraryState) (r : Except JsValue (List Mcp)) :
    Except JsValue Unit × McpLibraryState :=
  let s1 : McpLibraryState := { s with isLoading := true, error := none }
  let s2 : McpLibraryState :=
    match r with
    | .ok l => { s1 with mcps := l }
    | .error e => { s1 with error := some (jsString e) }
  (Except.ok (), { s2 with isLoading := false })

/-- async create(request): awaits create_mcp (rethrowing its failure
with the state untouched) and appends the returned entity. -/
def create (s : McpLibraryState) (_request : CreateMcpRequest)
    (r : Except JsValue Mcp) : Except JsValue Mcp × McpLibraryState :=
  match r with
  | .error e => (.error e, s)
  | .ok mcp => (.ok mcp, { s with mcps := s.mcps ++ [mcp] })

/-- async update(id, request): awaits update_mcp (rethrowing its failure
with the state untouched) and maps the cache, replacing the entity whose
id matches. -/
def update (s : McpLibraryState) (id : Nat) (_request : CreateMcpRequest)
    (r : Except JsValue Mcp) : Except JsValue Mcp × McpLibraryState :=
  match r with
  | .error e => (.error e, s)
  | .ok mcp => (.ok mcp, { s with mcps := s.mcps.map (fun m => if m.id = id then mcp else m) })

/-- async delete(id): awaits delete_mcp (rethrowing its failure with the
state untouched) and filters the entity with that id out of the cache. -/
def delete (s : McpLibraryState) (id : Nat) (r : Except JsValue Unit) :
    Except JsValue Unit × McpLibraryState :=
  match r with
  | .error e => (.error e, s)
  | .ok _ => (.ok (), { s with mcps := s.mcps.filter (fun m => m.id ≠ id) })

/-- async duplicate(id): awaits duplicate_mcp (rethrowing its failure
with the state untouched) and appends the returned copy. -/
def duplicate (s : McpLibraryState) (_id : Nat) (r : Except JsValue Mcp) :
    Except JsValue Mcp × McpLibraryState :=
  match r with
  | .error e => (.error e, s)
  | .ok mcp => (.ok mcp, { s with mcps := s.mcps ++ [mcp] })

/-- async toggleGlobal(id, enabled): awaits toggle_global_mcp
(rethrowing its failure with the state untouched) and maps the cache,
spreading the matching entity with isEnabledGlobal := enabled. -/
def toggleGlobal (s : McpLibraryState) (id : Nat) (enabled : Bool)
    (r : Except JsValue Unit) : Except JsValue Unit × McpLibraryState :=
  match r with
  | .error e => (.error e, s)
  | .ok _ =>
    (.ok (), { s with mcps := (s.mcps.map
      (fun m => if m.id = id then { m with isEnabledGlobal := enabled } else m)) })

end McpLibraryState

/-- A project entity (projects.svelte.ts).  Only the identifier is
relevant to the store operations modelled here. -/
structure Project where
  id : Nat
  name : String
  path : String
deriving DecidableEq, Repr

/-- A global-MCP assignment entity (projects.svelte.ts). -/
structure GlobalMcp where
  id : Nat
deriving DecidableEq, Repr

/-- The reactive fields of the ProjectsState class: one shared isLoading
flag and error field next to the two entity caches. -/
structure ProjectsState where
  projects : List Project
  globalMcps : List GlobalMcp
  isLoading : Bool
  error : Option String
deriving DecidableEq, Repr

namespace ProjectsState

/-- async loadProjects(): sets isLoading, clears error, assigns the
backend result on success, stores String(e) on failure, clears
isLoading in the finally block; never rethrows. -/
def loadProjects (s : ProjectsState) (r : Except JsValue (List Project)) :
    Except JsValue Unit × ProjectsState :=
  let s1 : ProjectsState := { s with isLoading := true, error := none }
  let s2 : ProjectsState :=
    match r with
    | .ok l => { s1 with projects := l }
    | .error e => { s1 with error := some (jsString e) }
  (Except.ok (), { s2 with isLoading := false })

/-- async loadGlobalMcps(): assigns the backend result on success; a
failure is only logged to the console — the method touches neither
error nor isLoading and never rethrows. -/
def loadGlobalMcps (s : ProjectsState) (r : Except JsValue (List GlobalMcp)) :
    Except JsValue Unit × ProjectsState :=
  match r with
  | .ok l => (Except.ok (), { s with globalMcps := l })
  | .error _ => (Except.ok (), s)

end ProjectsState

/-- The four process-wide console entry points (debugLogger.ts), over an
abstract type F of function values so that restoring "the same
function" is expressible. -/
structure ConsoleSlots (F : Type) where
  log : F
  warn : F
  error : F
  info : F
deriving DecidableEq, Repr

/-- The module state of debugLogger.ts: the current global console
functions and the interceptorInstalled flag.  The originalConsole
constant (bound at module load) and the wrapper closures built by
install are passed in as parameters. -/
structure InterceptorState (F : Type) where
  console : ConsoleSlots F
  interceptorInstalled : Bool
deriving DecidableEq, Repr

/-- installDebugInterceptor(): a no-op when already installed; otherwise
replaces the four console functions with the wrapper closures and sets
the flag. -/
def installDebugInterceptor {F : Type} (wrappers : ConsoleSlots F)
    (s : InterceptorState F) : InterceptorState F :=
  if s.interceptorInstalled then s
  else { console := wrappers, interceptorInstalled := true }

/-- uninstallDebugInterceptor(): a no-op when not installed; otherwise
restores the four console functions from originalConsole and clears the
flag. -/
def uninstallDebugInterceptor {F : Type} (originalConsole : ConsoleSlots F)
    (s : InterceptorState F) : InterceptorState F :=
  if !s.interceptorInstalled then s
  else { console := originalConsole, interceptorInstalled := false }

/-- isInterceptorInstalled(). -/
def isInterceptorInstalled {F : Type} (s : InterceptorState F) : Bool :=
  s.interceptorInstalled

/-- The GitHub release record shape fetched by whatsNew.svelte.ts
(fields of the parsed JSON body that parseRelease reads; absent JSON
fields are modelled as empty strings, matching their falsiness). -/
structure ReleaseData where
  tag_name : String
  name : String
  body : String
  published_at : String
  html_url : String
deriving DecidableEq, Repr

/-- The ReleaseInfo interface of whatsNew.svelte.ts. -/
structure ReleaseInfo where
  version : String
  name : String
  body : String
  publishedAt : String
  htmlUrl : String
deriving DecidableEq, Repr

/-- The outcome of one fetch(url): a rejected promise carrying a thrown
value, or a response with its ok flag and the outcome of reading its
JSON body. -/
inductive FetchOutcome where
  | reject : JsValue → FetchOutcome
  | resp : Bool → Except JsValue ReleaseData → FetchOutcome

/-- The reactive fields of the WhatsNewState class. -/
structure WhatsNewState where
  isOpen : Bool
  isLoading : Bool
  release : Option ReleaseInfo
  error : Option String
deriving DecidableEq, Repr

namespace WhatsNewState

def GITHUB_REPO : String := "tylergraydev/claude-code-tool-manager"

/-- The first endpoint tried: releases/tags/v<version>. -/
def taggedUrl (version : String) : String :=
  "https://api.github.com/repos/" ++ GITHUB_REPO ++ "/releases/tags/v" ++ version

/-- The fallback endpoint: releases/tags/<version>. -/
def untaggedUrl (version : String) : String :=
  "https://api.github.com/repos/" ++ GITHUB_REPO ++ "/releases/tags/" ++ version

/-- tag_name.replace with a leading-v anchor: drops one leading `v`. -/
def stripLeadingV (s : String) : String :=
  match s.data with
  | 'v' :: rest => ⟨rest⟩
  | _ => s

/-- parseRelease: version from the tag, name/body with falsy-or
defaults, timestamp and link copied through. -/
def parseRelease (data : ReleaseData) : ReleaseInfo :=
  { version := stripLeadingV data.tag_name
    name := if data.name = "" then "Version " ++ data.tag_name else data.name
    body := if data.body = "" then "No release notes available." else data.body
    publishedAt := data.published_at
    htmlUrl := data.html_url }

/-- An apostrophe, kept out of string literals. -/
def apos : String := String.singleton (Char.ofNat 39)

/-- The synthesized fallback record built in the catch block of
fetchReleaseNotes: requested version, generic title and body, the
current time, and the generic releases link. -/
def fallbackRelease (version now : String) : ReleaseInfo :=
  { version := version
    name := "Version " ++ version
    body := "You" ++ apos ++
      "ve been updated to the latest version! Check the GitHub releases page for details."
    publishedAt := now
    htmlUrl := "https://github.com/" ++ GITHUB_REPO ++ "/releases" }

/-- The catch block of fetchReleaseNotes: record the message (e.message
for Errors, a generic text otherwise) and install the fallback
record. -/
def fetchCatch (s1 : WhatsNewState) (version now : String) (e : JsValue) : WhatsNewState :=
  { s1 with
    error := some (catchMessage e "Failed to fetch release notes")
    release := some (fallbackRelease version now) }

/-- The finally block: clear isLoading on every exit path. -/
def fetchFinally (st : WhatsNewState) (trace : List String) :
    WhatsNewState × List String :=
  ({ st with isLoading := false }, trace)

/-- async fetchReleaseNotes(version): set isLoading, clear error, fetch
the tagged endpoint; on a not-ok response fetch the untagged endpoint
once; throw the Release-not-found Error if that is also not-ok; parse
and store the release on success; the catch block records the message
and the fallback record; the finally block clears isLoading.  `now` is
the wall clock read by new Date(); the second component lists the URLs
fetched, in order. -/
def fetchReleaseNotes (version now : String) (env : String → FetchOutcome)
    (s : WhatsNewState) : WhatsNewState × List String :=
  let s1 : WhatsNewState := { s with isLoading := true, error := none }
  match env (taggedUrl version) with
  | .reject e => fetchFinally (fetchCatch s1 version now e) [taggedUrl version]
  | .resp ok json =>
    if ok then
      match json with
      | .error e => fetchFinally (fetchCatch s1 version now e) [taggedUrl version]
      | .ok d =>
        fetchFinally { s1 with release := some (parseRelease d) } [taggedUrl version]
    else
      match env (untaggedUrl version) with
      | .reject e =>
        fetchFinally (fetchCatch s1 version now e) [taggedUrl version, untaggedUrl version]
      | .resp ok2 json2 =>
        if ok2 then
          match json2 with
          | .error e =>
            fetchFinally (fetchCatch s1 version now e)
              [taggedUrl version, untaggedUrl version]
          | .ok d =>
            fetchFinally { s1 with release := some (parseRelease d) }
              [taggedUrl version, untaggedUrl version]
        else
          fetchFinally (fetchCatch s1 version now (JsValue.errObj "Error" "Release not found"))
            [taggedUrl version, untaggedUrl version]

/-- async checkForWhatsNew(): read the version (failures only logged),
read the marker from local storage; on first run persist the current
version and stop; on an unchanged version stop; otherwise fetch the
release notes and open the modal.  Returns (state, marker, fetched
URLs). -/
def checkForWhatsNew (getVer : Except JsValue String) (marker : Option String)
    (now : String) (env : String → FetchOutcome) (s : WhatsNewState) :
    WhatsNewState × Option String × List String :=
  match getVer with
  | .error _ => (s, marker, [])
  | .ok currentVersion =>
    match marker with
    | none => (s, some currentVersion, [])
    | some lastSeenVersion =>
      if lastSeenVersion = currentVersion then (s, marker, [])
      else
        let r := fetchReleaseNotes currentVersion now env s
        ({ r.1 with isOpen := true }, marker, r.2)

/-- dismiss(): close the modal and, when a release is held, persist its
version as the last-seen marker. -/
def dismiss (s : WhatsNewState) (marker : Option String) :
    WhatsNewState × Option String :=
  ({ s with isOpen := false },
   match s.release with
   | some r => some r.version
   | none => marker)

end WhatsNewState

/-- A concrete localeCompare: code-point comparison returning the sign
as -1/1/0. -/
def strCmp (a b : String) : Int :=
  if a < b then -1 else if b < a then 1 else 0

/-! The renderMarkdown function of WhatsNewModal.svelte: a chain of
twelve regex substitutions over the raw release body.  Each substitution
is embedded as a matcher over character lists driven by a left-to-right
global-replacement scanner, mirroring JavaScript String.replace with a
global regex. -/

/-- JavaScript regex `.`: any character except the four line
terminators. -/
def jsDot (c : Char) : Bool :=
  c ≠ '\n' && c ≠ '\r' && c ≠ Char.ofNat 0x2028 && c ≠ Char.ofNat 0x2029

/-- JavaScript regex `\w`: ASCII word characters. -/
def wordChar (c : Char) : Bool := c.isAlphanum || c = '_'

/-- The backtick character. -/
def btick : Char := Char.ofNat 96

/-- Left-to-right global replacement driver: at each position try the
matcher; on a match emit its replacement and continue after the
consumed text, otherwise copy one character and move on.  Every matcher
below consumes at least one character on success, so fuel equal to the
input length suffices. -/
def replaceScan (step : List Char → Option (List Char × List Char)) :
    Nat → List Char → List Char
  | 0, s => s
  | _ + 1, [] => []
  | fuel + 1, c :: rest =>
    match step (c :: rest) with
    | some (repl, after) => repl ++ replaceScan step fuel after
    | none => c :: replaceScan step fuel rest

/-- Run a matcher globally over a character list. -/
def runScan (step : List Char → Option (List Char × List Char))
    (s : List Char) : List Char :=
  replaceScan step s.length s

/-- Split at newline characters (the line structure seen by the m
flag). -/
def splitLinesCh : List Char → List (List Char)
  | [] => [[]]
  | '\n' :: rest => [] :: splitLinesCh rest
  | c :: rest =>
    match splitLinesCh rest with
    | l :: ls => (c :: l) :: ls
    | [] => [[c]]

/-- Rejoin lines with newlines. -/
def joinLinesCh : List (List Char) → List Char
  | [] => []
  | [l] => l
  | l :: ls => l ++ '\n' :: joinLinesCh ls

/-- Apply a whole-line rewrite to every line. -/
def mapLines (f : List Char → List Char) (s : List Char) : List Char :=
  joinLinesCh ((splitLinesCh s).map f)

/-- A rule of the shape ^marker(.+)$ under the gm flags: the line starts
with the marker and the non-empty remainder consists of `.`-matchable
characters; the whole line is replaced by openTag ++ remainder ++
closeTag. -/
def lineRule (marker openTag closeTag : List Char) (line : List Char) : List Char :=
  if marker.isPrefixOf line then
    let rest := line.drop marker.length
    if rest ≠ [] && rest.all jsDot then openTag ++ rest ++ closeTag
    else line
  else line

def h4Open : List Char :=
  "<h4 class=\"text-sm font-semibold text-gray-900 dark:text-white mt-4 mb-2\">".data
def h4Close : List Char := "</h4>".data
def h3Open : List Char :=
  "<h3 class=\"text-base font-semibold text-gray-900 dark:text-white mt-4 mb-2\">".data
def h3Close : List Char := "</h3>".data
def h2Open : List Char :=
  "<h2 class=\"text-lg font-bold text-gray-900 dark:text-white mt-4 mb-2\">".data
def h2Close : List Char := "</h2>".data
def strongOpen : List Char := "<strong class=\"font-semibold\">".data
def strongClose : List Char := "</strong>".data
def emOpen : List Char := "<em>".data
def emClose : List Char := "</em>".data
def preOpen : List Char :=
  "<pre class=\"bg-gray-100 dark:bg-gray-800 rounded p-2 text-xs overflow-x-auto my-2\"><code>".data
def preClose : List Char := "</code></pre>".data
def codeOpen : List Char :=
  "<code class=\"bg-gray-100 dark:bg-gray-800 px-1 py-0.5 rounded text-sm\">".data
def codeClose : List Char := "</code>".data
def aOpenHref : List Char := "<a href=\"".data
def aOpenRest : List Char :=
  "\" class=\"text-primary-600 hover:underline\" target=\"_blank\" rel=\"noopener\">".data
def aClose : List Char := "</a>".data
def liOpen : List Char := "<li class=\"ml-4 list-disc\">".data
def liClose : List Char := "</li>".data
def ulOpen : List Char := "<ul class=\"my-2 space-y-1\">".data
def ulClose : List Char := "</ul>".data
def pRepl : List Char := "</p><p class=\"my-2\">".data
def brRepl : List Char := "<br>".data

/-- Lazy body of \*\*(.+?)\*\*: consume `.` characters one at a time
and close at the first following `**` (at least one consumed). -/
def boldClose (acc : List Char) : List Char → Option (List Char × List Char)
  | [] => none
  | c :: rest =>
    if jsDot c then
      match rest with
      | '*' :: '*' :: after => some (acc ++ [c], after)
      | _ => boldClose (acc ++ [c]) rest
    else none

/-- The bold rule \*\*(.+?)\*\* → strong. -/
def boldStep : List Char → Option (List Char × List Char)
  | '*' :: '*' :: rest =>
    match boldClose [] rest with
    | some (content, after) => some (strongOpen ++ content ++ strongClose, after)
    | none => none
  | _ => none

/-- Lazy body of \*(.+?)\*: close at the first following `*` after at
least one `.` character. -/
def italicClose (acc : List Char) : List Char → Option (List Char × List Char)
  | [] => none
  | c :: rest =>
    if jsDot c then
      match rest with
      | '*' :: after => some (acc ++ [c], after)
      | _ => italicClose (acc ++ [c]) rest
    else none

/-- The italic rule \*(.+?)\* → em. -/
def italicStep : List Char → Option (List Char × List Char)
  | '*' :: rest =>
    match italicClose [] rest with
    | some (content, after) => some (emOpen ++ content ++ emClose, after)
    | none => none
  | _ => none

/-- Lazy body of the fenced-code rule: any characters (line terminators
included, possibly none) up to the first closing fence. -/
def fenceClose (acc : List Char) : List Char → Option (List Char × List Char)
  | [] => none
  | c :: rest =>
    if c = btick && [btick, btick].isPrefixOf rest then some (acc, rest.drop 2)
    else fenceClose (acc ++ [c]) rest

/-- The inner replace of ^\w+\n with the empty string inside the
replacement callback: strip one leading language word followed by a
newline. -/
def stripLangLine (code : List Char) : List Char :=
  let w := code.takeWhile wordChar
  if w ≠ [] then
    match code.drop w.length with
    | '\n' :: rest => rest
    | _ => code
  else code

/-- The fenced-code rule: a fence, a lazy body, a fence; the callback
wraps slice(3,-3) with the language line stripped in pre/code tags. -/
def codeBlockStep (s : List Char) : Option (List Char × List Char) :=
  if [btick, btick, btick].isPrefixOf s then
    match fenceClose [] (s.drop 3) with
    | some (content, after) =>
      some (preOpen ++ stripLangLine content ++ preClose, after)
    | none => none
  else none

/-- The inline-code rule: a backtick, a maximal non-empty run of
non-backtick characters, a backtick. -/
def inlineCodeStep : List Char → Option (List Char × List Char)
  | c :: rest =>
    if c = btick then
      let content := rest.takeWhile (fun x => x ≠ btick)
      let after := rest.drop content.length
      if content ≠ [] && after ≠ [] then
        some (codeOpen ++ content ++ codeClose, after.drop 1)
      else none
    else none
  | [] => none

/-- The link rule \[([^\]]+)\]\(([^)]+)\) → anchor tag. -/
def linkStep : List Char → Option (List Char × List Char)
  | '[' :: rest =>
    let txt := rest.takeWhile (fun c => c ≠ ']')
    let r1 := rest.drop txt.length
    if txt ≠ [] then
      match r1 with
      | ']' :: '(' :: r2 =>
        let url := r2.takeWhile (fun c => c ≠ ')')
        let r3 := r2.drop url.length
        if url ≠ [] then
          match r3 with
          | ')' :: r4 => some (aOpenHref ++ url ++ aOpenRest ++ txt ++ aClose, r4)
          | _ => none
        else none
      | _ => none
    else none
  | _ => none

/-- The start index of the last occurrence of the closing li tag within
the `.`-matchable run (the greedy .* backs off to the last one). -/
def lastCloseIdx (run : List Char) : Option Nat :=
  ((List.range (run.length + 1)).filterMap
    (fun j => if "</li>".data.isPrefixOf (run.drop j) then some j else none)).getLast?

/-- One iteration of the group <li[^>]*>.*<\/li>\n? — returns the text
it matched and the rest of the input. -/
def liGroup (s : List Char) : Option (List Char × List Char) :=
  if "<li".data.isPrefixOf s then
    let r0 := s.drop 3
    let attrs := r0.takeWhile (fun c => c ≠ '>')
    let r1 := r0.drop attrs.length
    match r1 with
    | '>' :: r2 =>
      let run := r2.takeWhile jsDot
      match lastCloseIdx run with
      | some j =>
        let consumed := j + 5
        let r3 := r2.drop consumed
        match r3 with
        | '\n' :: r4 =>
          some ("<li".data ++ attrs ++ '>' :: (r2.take consumed ++ ['\n']), r4)
        | _ => some ("<li".data ++ attrs ++ '>' :: r2.take consumed, r3)
      | none => none
    | _ => none
  else none

/-- Greedy repetition of the li group (at least one iteration); each
iteration consumes at least nine characters, so fuel equal to the input
length suffices. -/
def liChain : Nat → List Char → Option (List Char × List Char)
  | 0, _ => none
  | fuel + 1, s =>
    match liGroup s with
    | none => none
    | some (m1, r1) =>
      match liChain fuel r1 with
      | some (m2, r2) => some (m1 ++ m2, r2)
      | none => some (m1, r1)

/-- The list-wrapping rule (<li[^>]*>.*<\/li>\n?)+ → ul around the whole
match. -/
def ulStep (s : List Char) : Option (List Char × List Char) :=
  match liChain s.length s with
  | some (m, r) => some (ulOpen ++ m ++ ulClose, r)
  | none => none

/-- The paragraph rule: a literal blank line becomes a paragraph
break. -/
def paraStep : List Char → Option (List Char × List Char)
  | '\n' :: '\n' :: rest => some (pRepl, rest)
  | _ => none

/-- The line-break rule: remaining newlines become br tags. -/
def brStep : List Char → Option (List Char × List Char)
  | '\n' :: rest => some (brRepl, rest)
  | _ => none

/-- renderMarkdown over character lists: the twelve substitutions in
source order — headers (###, ##, #), bold, italic, fenced code blocks,
inline code, links, bullet items, ul wrapping, paragraph breaks, line
breaks. -/
def renderMarkdownCh (text : List Char) : List Char :=
  let t1 := mapLines (lineRule "### ".data h4Open h4Close) text
  let t2 := mapLines (lineRule "## ".data h3Open h3Close) t1
  let t3 := mapLines (lineRule "# ".data h2Open h2Close) t2
  let t4 := runScan boldStep t3
  let t5 := runScan italicStep t4
  let t6 := runScan codeBlockStep t5
  let t7 := runScan inlineCodeStep t6
  let t8 := runScan linkStep t7
  let t9 := mapLines (lineRule "- ".data liOpen liClose) t8
  let t10 := runScan ulStep t9
  let t11 := runScan paraStep t10
  runScan brStep t11

/-- renderMarkdown (WhatsNewModal.svelte). -/
def renderMarkdown (text : String) : String :=
  ⟨renderMarkdownCh text.data⟩

/-- Auxiliary: mapping a function that fixes every element of a list
leaves the list unchanged. -/
theorem map_eq_self_of_fixed {α : Type} (f : α → α) :
    ∀ (l : List α), (∀ x ∈ l, f x = x) → l.map f = l := by
  intro l
  induction l with
  | nil => intro _; rfl
  | cons a t ih =>
    intro h
    simp only [List.map_cons]
    rw [h a (List.mem_cons_self a t), ih (fun x hx => h x (List.mem_cons_of_mem a hx))]

/-- Auxiliary: a map relates pointwise to the original list. -/
theorem forall₂_map_self {α : Type} (R : α → α → Prop) (f : α → α) :
    ∀ (l : List α), (∀ x ∈ l, R x (f x)) → List.Forall₂ R l (l.map f) := by
  intro l
  induction l with
  | nil => intro _; exact List.Forall₂.nil
  | cons a t ih =>
    intro h
    exact List.Forall₂.cons (h a (List.mem_cons_self a t))
      (ih (fun x hx => h x (List.mem_cons_of_mem a hx)))

/-- The comparator accepts a-before-b exactly when a is favorite and b
is not, or both have the same favorite status and localeCompare is
non-positive. -/
theorem mcpSortLe_eq_true_iff (lc : String → String → Int) (a b : Mcp) :
    mcpSortLe lc a b = true ↔
      ((a.isFavorite = true ∧ b.isFavorite = false) ∨
       (a.isFavorite = b.isFavorite ∧ lc a.name b.name ≤ 0)) := by
  rcases ha : a.isFavorite <;> rcases hb : b.isFavorite <;>
    simp [mcpSortLe, mcpCompare, ha, hb]

/-- Totality of the comparator relation, given totality of
localeCompare. -/
theorem mcpSortLe_total (lc : String → String → Int)
    (htot : ∀ x y : String, lc x y ≤ 0 ∨ lc y x ≤ 0) (a b : Mcp) :
    (mcpSortLe lc a b || mcpSortLe lc b a) = true := by
  rcases ha : a.isFavorite <;> rcases hb : b.isFavorite <;>
    simp [mcpSortLe, mcpCompare, ha, hb]
  · exact htot a.name b.name
  · exact htot a.name b.name

/-- Transitivity of the comparator relation, given transitivity of
localeCompare. -/
theorem mcpSortLe_trans (lc : String → String → Int)
    (htrans : ∀ x y z : String, lc x y ≤ 0 → lc y z ≤ 0 → lc x z ≤ 0)
    (a b c : Mcp) :
    mcpSortLe lc a b = true → mcpSortLe lc b c = true → mcpSortLe lc a c = true := by
  rw [mcpSortLe_eq_true_iff, mcpSortLe_eq_true_iff, mcpSortLe_eq_true_iff]
  rintro (⟨ha, hb⟩ | ⟨hab, lab⟩) (⟨hb2, hc⟩ | ⟨hbc, lbc⟩)
  · rw [hb] at hb2; cases hb2
  · left; exact ⟨ha, hbc ▸ hb⟩
  · left; exact ⟨hab ▸ hb2, hc⟩
  · right; exact ⟨hab.trans hbc, htrans _ _ _ lab lbc⟩

theorem strCmp_le_zero_iff (a b : String) : strCmp a b ≤ 0 ↔ a ≤ b := by
  rcases lt_trichotomy a b with h | h | h
  · simp [strCmp, h, le_of_lt h]
  · subst h
    simp [strCmp, lt_irrefl]
  · simp [strCmp, asymm h, h, not_le.mpr h]

/-- strCmp is total. -/
theorem strCmp_total (x y : String) : strCmp x y ≤ 0 ∨ strCmp y x ≤ 0 := by
  rw [strCmp_le_zero_iff, strCmp_le_zero_iff]
  exact le_total x y

/-- strCmp is transitive on the non-positive side. -/
theorem strCmp_trans (x y z : String) :
    strCmp x y ≤ 0 → strCmp y z ≤ 0 → strCmp x z ≤ 0 := by
  rw [strCmp_le_zero_iff, strCmp_le_zero_iff, strCmp_le_zero_iff]
  exact le_trans

/-- The tagged and untagged endpoints are distinct for every version
(their lengths differ by the extra `v`). -/
theorem taggedUrl_ne_untaggedUrl (version : String) :
    WhatsNewState.taggedUrl version ≠ WhatsNewState.untaggedUrl version := by
  intro h
  have h2 := congrArg String.length h
  simp only [WhatsNewState.taggedUrl, WhatsNewState.untaggedUrl,
    String.length_append] at h2
  have hv : ("/releases/tags/v" : String).length = 16 := rfl
  have hu : ("/releases/tags/" : String).length = 15 := rfl
  omega

/-- C1 (failing input): the bold and italic substitutions of
renderMarkdown run before the fenced-code substitution, so a fenced
code block whose contents include emphasis markers is altered: on the
release body with a fenced block containing a bold marker pair, the
code block of the output holds a strong tag where the source text had the
markers, the original code text no longer occurs in the output, and a
strong tag does. -/
theorem spec_C1_code_block_contents_altered :
    renderMarkdown "```\n**bold**\n```" =
      "<pre class=\"bg-gray-100 dark:bg-gray-800 rounded p-2 text-xs overflow-x-auto my-2\"><code><br><strong class=\"font-semibold\">bold</strong><br></code></pre>" ∧
    jsIncludes (renderMarkdown "```\n**bold**\n```") "**bold**" = false ∧
    jsIncludes (renderMarkdown "```\n**bold**\n```") "<strong" = true := by
  set_option maxRecDepth 10000 in
  refine ⟨by decide, by decide, by decide⟩

/-- C2: when the tagged endpoint responds not-ok, fetchReleaseNotes
fetches the untagged endpoint exactly once (the trace is precisely
[tagged, untagged]); if the second fetch also fails — by a not-ok
response, or by rejecting with a value whose rendered message is
non-empty, as real fetch rejections are — the release field holds the
synthesized fallback record (never null) and error holds a non-empty
message; and isLoading is false on return for every environment. -/
theorem spec_C2_fetch_fallback (version now : String) (env : String → FetchOutcome)
    (s : WhatsNewState) (j : Except JsValue ReleaseData)
    (h1 : env (WhatsNewState.taggedUrl version) = .resp false j) :
    ((WhatsNewState.fetchReleaseNotes version now env s).2 =
        [WhatsNewState.taggedUrl version, WhatsNewState.untaggedUrl version] ∧
     (WhatsNewState.fetchReleaseNotes version now env s).2.countP
        (fun u => u = WhatsNewState.untaggedUrl version) = 1) ∧
    (∀ j2, env (WhatsNewState.untaggedUrl version) = .resp false j2 →
      (WhatsNewState.fetchReleaseNotes version now env s).1.release =
        some (WhatsNewState.fallbackRelease version now) ∧
      (WhatsNewState.fetchReleaseNotes version now env s).1.error =
        some "Release not found" ∧ ("Release not found" : String) ≠ "") ∧
    (∀ e, env (WhatsNewState.untaggedUrl version) = .reject e →
      catchMessage e "Failed to fetch release notes" ≠ "" →
      (WhatsNewState.fetchReleaseNotes version now env s).1.release =
        some (WhatsNewState.fallbackRelease version now) ∧
      ∃ msg, (WhatsNewState.fetchReleaseNotes version now env s).1.error = some msg ∧
        msg ≠ "") ∧
    (∀ (env2 : String → FetchOutcome) (s2 : WhatsNewState),
      (WhatsNewState.fetchReleaseNotes version now env2 s2).1.isLoading = false) := by
  have hne := taggedUrl_ne_untaggedUrl version
  have htrace : (WhatsNewState.fetchReleaseNotes version now env s).2 =
      [WhatsNewState.taggedUrl version, WhatsNewState.untaggedUrl version] := by
    rcases henv : env (WhatsNewState.untaggedUrl version) with e | ⟨ok2, j2⟩
    · simp [WhatsNewState.fetchReleaseNotes, h1, henv, WhatsNewState.fetchFinally]
    · cases ok2 <;> rcases j2 with e2 | d <;>
        simp [WhatsNewState.fetchReleaseNotes, h1, henv, WhatsNewState.fetchFinally]
  refine ⟨⟨htrace, ?_⟩, ?_, ?_, ?_⟩
  · rw [htrace]
    simp [List.countP_cons, hne]
  · intro j2 h2
    refine ⟨?_, ?_, by decide⟩ <;>
      simp [WhatsNewState.fetchReleaseNotes, h1, h2, WhatsNewState.fetchFinally,
        WhatsNewState.fetchCatch, catchMessage]
  · intro e h2 hmsg
    refine ⟨?_, catchMessage e "Failed to fetch release notes", ?_, hmsg⟩ <;>
      simp [WhatsNewState.fetchReleaseNotes, h1, h2, WhatsNewState.fetchFinally,
        WhatsNewState.fetchCatch]
  · intro env2 s2
    rcases h : env2 (WhatsNewState.taggedUrl version) with e | ⟨ok, jj⟩
    · simp [WhatsNewState.fetchReleaseNotes, h, WhatsNewState.fetchFinally]
    · cases ok
      · rcases h2 : env2 (WhatsNewState.untaggedUrl version) with e2 | ⟨ok2, j2⟩
        · simp [WhatsNewState.fetchReleaseNotes, h, h2, WhatsNewState.fetchFinally]
        · cases ok2 <;> rcases j2 with e3 | d <;>
            simp [WhatsNewState.fetchReleaseNotes, h, h2, WhatsNewState.fetchFinally]
      · rcases jj with e2 | d <;>
          simp [WhatsNewState.fetchReleaseNotes, h, WhatsNewState.fetchFinally]

/-- Concrete instantiation of spec_C2_fetch_fallback: both endpoints
respond not-ok. -/
theorem spec_C2_fetch_fallback_witness :
    ((WhatsNewState.fetchReleaseNotes "9.9.9" "t0"
        (fun _ => FetchOutcome.resp false (Except.error (JsValue.str "bad")))
        ⟨false, false, none, none⟩).2 =
      [WhatsNewState.taggedUrl "9.9.9", WhatsNewState.untaggedUrl "9.9.9"]) ∧
    ((WhatsNewState.fetchReleaseNotes "9.9.9" "t0"
        (fun _ => FetchOutcome.resp false (Except.error (JsValue.str "bad")))
        ⟨false, false, none, none⟩).1.release =
      some (WhatsNewState.fallbackRelease "9.9.9" "t0")) ∧
    ((WhatsNewState.fetchReleaseNotes "9.9.9" "t0"
        (fun _ => FetchOutcome.resp false (Except.error (JsValue.str "bad")))
        ⟨false, false, none, none⟩).1.error = some "Release not found") ∧
    ((WhatsNewState.fetchReleaseNotes "9.9.9" "t0"
        (fun _ => FetchOutcome.resp false (Except.error (JsValue.str "bad")))
        ⟨false, false, none, none⟩).1.isLoading = false) :=
  ⟨(spec_C2_fetch_fallback "9.9.9" "t0"
      (fun _ => FetchOutcome.resp false (Except.error (JsValue.str "bad")))
      ⟨false, false, none, none⟩ (Except.error (JsValue.str "bad")) rfl).1.1,
   ((spec_C2_fetch_fallback "9.9.9" "t0"
      (fun _ => FetchOutcome.resp false (Except.error (JsValue.str "bad")))
      ⟨false, false, none, none⟩ (Except.error (JsValue.str "bad")) rfl).2.1
      (Except.error (JsValue.str "bad")) rfl).1,
   ((spec_C2_fetch_fallback "9.9.9" "t0"
      (fun _ => FetchOutcome.resp false (Except.error (JsValue.str "bad")))
      ⟨false, false, none, none⟩ (Except.error (JsValue.str "bad")) rfl).2.1
      (Except.error (JsValue.str "bad")) rfl).2.1,
   (spec_C2_fetch_fallback "9.9.9" "t0"
      (fun _ => FetchOutcome.resp false (Except.error (JsValue.str "bad")))
      ⟨false, false, none, none⟩ (Except.error (JsValue.str "bad")) rfl).2.2.2
      (fun _ => FetchOutcome.resp false (Except.error (JsValue.str "bad")))
      ⟨false, false, none, none⟩⟩

/-- C3 counterexample: loadGlobalMcps on a failing backend call neither
clears the pre-existing error field, nor records the failure in it, nor
leaves isLoading false when it was true on entry — refuting the claim
that every listed load operation clears error at the start, records the
failure text, and returns with isLoading false. -/
theorem spec_C3_counterexample :
    (ProjectsState.loadGlobalMcps ⟨[], [], true, some "stale"⟩
        (.error (JsValue.str "boom"))).2.error = some "stale" ∧
    (ProjectsState.loadGlobalMcps ⟨[], [], true, some "stale"⟩
        (.error (JsValue.str "boom"))).2.error ≠ some (jsString (JsValue.str "boom")) ∧
    (ProjectsState.loadGlobalMcps ⟨[], [], true, some "stale"⟩
        (.error (JsValue.str "boom"))).2.isLoading = true := by
  refine ⟨rfl, ?_, rfl⟩
  simp [ProjectsState.loadGlobalMcps, jsString]

/-- C3 (amended): mcpLibrary.load and projectsStore.loadProjects never
rethrow, clear error at the start (their final error is none on success
even if one was set before), record String(e) on failure, and return
with isLoading false on every path; projectsStore.loadGlobalMcps never
rethrows and leaves its cache unchanged on failure, but does not touch
error or isLoading — both keep their prior values. -/
theorem spec_C3_amended_load_failure_policy :
    (∀ (s : McpLibraryState) (r : Except JsValue (List Mcp)),
      (McpLibraryState.load s r).1 = Except.ok () ∧
      (McpLibraryState.load s r).2.isLoading = false ∧
      (∀ l, r = .ok l →
        (McpLibraryState.load s r).2.mcps = l ∧ (McpLibraryState.load s r).2.error = none) ∧
      (∀ e, r = .error e →
        (McpLibraryState.load s r).2.mcps = s.mcps ∧
        (McpLibraryState.load s r).2.error = some (jsString e))) ∧
    (∀ (s : ProjectsState) (r : Except JsValue (List Project)),
      (ProjectsState.loadProjects s r).1 = Except.ok () ∧
      (ProjectsState.loadProjects s r).2.isLoading = false ∧
      (∀ l, r = .ok l →
        (ProjectsState.loadProjects s r).2.projects = l ∧
        (ProjectsState.loadProjects s r).2.error = none) ∧
      (∀ e, r = .error e →
        (ProjectsState.loadProjects s r).2.projects = s.projects ∧
        (ProjectsState.loadProjects s r).2.error = some (jsString e))) ∧
    (∀ (s : ProjectsState) (r : Except JsValue (List GlobalMcp)),
      (ProjectsState.loadGlobalMcps s r).1 = Except.ok () ∧
      (ProjectsState.loadGlobalMcps s r).2.isLoading = s.isLoading ∧
      (ProjectsState.loadGlobalMcps s r).2.error = s.error ∧
      (∀ e, r = .error e →
        (ProjectsState.loadGlobalMcps s r).2.globalMcps = s.globalMcps)) := by
  refine ⟨?_, ?_, ?_⟩
  · intro s r
    refine ⟨?_, ?_, ?_, ?_⟩ <;> cases r <;>
      simp [McpLibraryState.load]
  · intro s r
    refine ⟨?_, ?_, ?_, ?_⟩ <;> cases r <;>
      simp [ProjectsState.loadProjects]
  · intro s r
    refine ⟨?_, ?_, ?_, ?_⟩ <;> cases r <;>
      simp [ProjectsState.loadGlobalMcps]

/-- Concrete instantiation of spec_C3_amended_load_failure_policy on a
failing load. -/
theorem spec_C3_amended_load_failure_policy_witness :
    ((McpLibraryState.load ⟨[], false, none, "", McpTypeFilter.all⟩
        (.error (JsValue.str "boom"))).1 = Except.ok ()) ∧
    ((McpLibraryState.load ⟨[], false, none, "", McpTypeFilter.all⟩
        (.error (JsValue.str "boom"))).2.isLoading = false) ∧
    ((McpLibraryState.load ⟨[], false, none, "", McpTypeFilter.all⟩
        (.error (JsValue.str "boom"))).2.error = some (jsString (JsValue.str "boom"))) ∧
    ((ProjectsState.loadGlobalMcps ⟨[], [⟨3⟩], false, none⟩
        (.error (JsValue.str "boom"))).2.globalMcps = [⟨3⟩]) :=
  ⟨(spec_C3_amended_load_failure_policy.1 ⟨[], false, none, "", McpTypeFilter.all⟩
      (.error (JsValue.str "boom"))).1,
   (spec_C3_amended_load_failure_policy.1 ⟨[], false, none, "", McpTypeFilter.all⟩
      (.error (JsValue.str "boom"))).2.1,
   ((spec_C3_amended_load_failure_policy.1 ⟨[], false, none, "", McpTypeFilter.all⟩
      (.error (JsValue.str "boom"))).2.2.2 (JsValue.str "boom") rfl).2,
   (spec_C3_amended_load_failure_policy.2.2 ⟨[], [⟨3⟩], false, none⟩
      (.error (JsValue.str "boom"))).2.2.2 (JsValue.str "boom") rfl⟩

/-- C4: for every mutation operation of the MCP library store (create,
update, delete, duplicate, toggleGlobal), a backend failure propagates
unchanged as the thrown outcome of the operation and the cached mcps list is
exactly what it was before the call; the cache changes only after a
successful backend call. -/
theorem spec_C4_mutations_propagate_failure_and_keep_cache :
    ∀ (s : McpLibraryState) (e : JsValue) (req : CreateMcpRequest)
      (id : Nat) (enabled : Bool),
      McpLibraryState.create s req (.error e) = (.error e, s) ∧
      McpLibraryState.update s id req (.error e) = (.error e, s) ∧
      McpLibraryState.delete s id (.error e) = (.error e, s) ∧
      McpLibraryState.duplicate s id (.error e) = (.error e, s) ∧
      McpLibraryState.toggleGlobal s id enabled (.error e) = (.error e, s) := by
  intro s e req id enabled
  refine ⟨rfl, rfl, rfl, rfl, rfl⟩

/-- C5: a successful toggleGlobal(id, enabled) relates the old cache to
the new one pointwise (same length, same order): the entity with the
given id keeps every other field and gets isEnabledGlobal = enabled,
and every entity with a different id is unchanged. -/
theorem spec_C5_toggleGlobal_frame (s : McpLibraryState) (id : Nat) (enabled : Bool)
    (_hid : id ∈ s.mcps.map (fun m => m.id)) :
    ((McpLibraryState.toggleGlobal s id enabled (.ok ())).2.mcps.length = s.mcps.length) ∧
    List.Forall₂ (fun old new =>
        (old.id = id →
          new.id = old.id ∧ new.name = old.name ∧ new.description = old.description ∧
          new.type = old.type ∧ new.tags = old.tags ∧ new.isFavorite = old.isFavorite ∧
          new.isEnabledGlobal = enabled) ∧
        (old.id ≠ id → new = old))
      s.mcps ((McpLibraryState.toggleGlobal s id enabled (.ok ())).2.mcps) := by
  refine ⟨?_, ?_⟩
  · simp only [McpLibraryState.toggleGlobal, List.length_map]
  · simp only [McpLibraryState.toggleGlobal]
    apply forall₂_map_self
    intro m _
    refine ⟨fun h => ?_, fun h => ?_⟩ <;> simp [h]

/-- Concrete instantiation of spec_C5_toggleGlobal_frame. -/
theorem spec_C5_toggleGlobal_frame_witness :
    (1 ∈ ([⟨1, "a", none, McpType.stdio, none, false, false⟩,
           ⟨2, "b", none, McpType.http, none, true, true⟩] : List Mcp).map (fun m => m.id)) ∧
    (((McpLibraryState.toggleGlobal
        ⟨[⟨1, "a", none, McpType.stdio, none, false, false⟩,
          ⟨2, "b", none, McpType.http, none, true, true⟩], false, none, "", McpTypeFilter.all⟩
        1 true (.ok ())).2.mcps.length =
      ([⟨1, "a", none, McpType.stdio, none, false, false⟩,
        ⟨2, "b", none, McpType.http, none, true, true⟩] : List Mcp).length) ∧
     List.Forall₂ (fun old new =>
        (old.id = 1 →
          new.id = old.id ∧ new.name = old.name ∧ new.description = old.description ∧
          new.type = old.type ∧ new.tags = old.tags ∧ new.isFavorite = old.isFavorite ∧
          new.isEnabledGlobal = true) ∧
        (old.id ≠ 1 → new = old))
      [⟨1, "a", none, McpType.stdio, none, false, false⟩,
       ⟨2, "b", none, McpType.http, none, true, true⟩]
      ((McpLibraryState.toggleGlobal
        ⟨[⟨1, "a", none, McpType.stdio, none, false, false⟩,
          ⟨2, "b", none, McpType.http, none, true, true⟩], false, none, "", McpTypeFilter.all⟩
        1 true (.ok ())).2.mcps)) :=
  ⟨by decide,
   spec_C5_toggleGlobal_frame
     ⟨[⟨1, "a", none, McpType.stdio, none, false, false⟩,
       ⟨2, "b", none, McpType.http, none, true, true⟩], false, none, "", McpTypeFilter.all⟩
     1 true (by decide)⟩

/-- C6: for every cache, query and type filter, filteredMcps contains
exactly the cached entities whose name, description, or some tag
contains the query case-insensitively (everything when the query is
empty) and whose type equals the selected type (every type on `all`),
and it is pairwise ordered with favorites before non-favorites and
non-positive localeCompare on names within equal favorite status.
localeCompare is any total, transitive comparison. -/
theorem spec_C6_filteredMcps_membership_and_order (lc : String → String → Int)
    (s : McpLibraryState)
    (htot : ∀ x y : String, lc x y ≤ 0 ∨ lc y x ≤ 0)
    (htrans : ∀ x y z : String, lc x y ≤ 0 → lc y z ≤ 0 → lc x z ≤ 0) :
    (∀ m : Mcp, m ∈ McpLibraryState.filteredMcps lc s ↔
      (m ∈ s.mcps ∧
       (s.searchQuery = "" ∨ searchMatches (jsToLower s.searchQuery) m = true) ∧
       (s.selectedType = McpTypeFilter.all ∨ typeEqFilter m.type s.selectedType = true))) ∧
    List.Pairwise (fun a b =>
      (a.isFavorite = true ∧ b.isFavorite = false) ∨
      (a.isFavorite = b.isFavorite ∧ lc a.name b.name ≤ 0))
      (McpLibraryState.filteredMcps lc s) := by
  constructor
  · intro m
    by_cases hq : s.searchQuery = "" <;> by_cases ht : s.selectedType = McpTypeFilter.all <;>
      (simp [McpLibraryState.filteredMcps, List.mem_mergeSort, List.mem_filter, hq, ht];
       try tauto)
  · have hPW := @List.sorted_mergeSort Mcp (mcpSortLe lc)
      (mcpSortLe_trans lc htrans) (mcpSortLe_total lc htot)
    exact List.Pairwise.imp
      (fun {a b} h => (mcpSortLe_eq_true_iff lc a b).mp h)
      (hPW _)

/-- Concrete instantiation of spec_C6_filteredMcps_membership_and_order
on the example from the specification: three entities, query `test`. -/
theorem spec_C6_filteredMcps_membership_and_order_witness :
    (∀ m : Mcp, m ∈ McpLibraryState.filteredMcps strCmp
        ⟨[⟨1, "test-mcp-1", none, McpType.stdio, none, false, false⟩,
          ⟨2, "test-mcp-2", none, McpType.stdio, none, false, false⟩,
          ⟨3, "other-mcp", none, McpType.stdio, none, false, false⟩],
         false, none, "test", McpTypeFilter.all⟩ ↔
      (m ∈ [⟨1, "test-mcp-1", none, McpType.stdio, none, false, false⟩,
            ⟨2, "test-mcp-2", none, McpType.stdio, none, false, false⟩,
            ⟨3, "other-mcp", none, McpType.stdio, none, false, false⟩] ∧
       (("test" : String) = "" ∨ searchMatches (jsToLower "test") m = true) ∧
       (McpTypeFilter.all = McpTypeFilter.all ∨
        typeEqFilter m.type McpTypeFilter.all = true))) ∧
    List.Pairwise (fun a b =>
      (a.isFavorite = true ∧ b.isFavorite = false) ∨
      (a.isFavorite = b.isFavorite ∧ strCmp a.name b.name ≤ 0))
      (McpLibraryState.filteredMcps strCmp
        ⟨[⟨1, "test-mcp-1", none, McpType.stdio, none, false, false⟩,
          ⟨2, "test-mcp-2", none, McpType.stdio, none, false, false⟩,
          ⟨3, "other-mcp", none, McpType.stdio, none, false, false⟩],
         false, none, "test", McpTypeFilter.all⟩) :=
  spec_C6_filteredMcps_membership_and_order strCmp
    ⟨[⟨1, "test-mcp-1", none, McpType.stdio, none, false, false⟩,
      ⟨2, "test-mcp-2", none, McpType.stdio, none, false, false⟩,
      ⟨3, "other-mcp", none, McpType.stdio, none, false, false⟩],
     false, none, "test", McpTypeFilter.all⟩
    strCmp_total strCmp_trans

/-- C7: on a first-ever run checkForWhatsNew records the current version
as the marker, changes no store state, opens nothing and fetches
nothing; when the stored marker equals the current version it changes
nothing at all. -/
theorem spec_C7_check_first_run_and_same_version (currentVersion now : String)
    (env : String → FetchOutcome) (s : WhatsNewState)
    (getVer : Except JsValue String) (h : getVer = .ok currentVersion) :
    WhatsNewState.checkForWhatsNew getVer none now env s = (s, some currentVersion, []) ∧
    WhatsNewState.checkForWhatsNew getVer (some currentVersion) now env s =
      (s, some currentVersion, []) := by
  subst h
  exact ⟨rfl, by simp [WhatsNewState.checkForWhatsNew]⟩

/-- Concrete instantiation of spec_C7_check_first_run_and_same_version. -/
theorem spec_C7_check_first_run_and_same_version_witness :
    WhatsNewState.checkForWhatsNew (.ok "1.2.0") none "t0"
      (fun _ => FetchOutcome.reject (JsValue.str "offline"))
      ⟨false, false, none, none⟩ = (⟨false, false, none, none⟩, some "1.2.0", []) ∧
    WhatsNewState.checkForWhatsNew (.ok "1.2.0") (some "1.2.0") "t0"
      (fun _ => FetchOutcome.reject (JsValue.str "offline"))
      ⟨false, false, none, none⟩ = (⟨false, false, none, none⟩, some "1.2.0", []) :=
  spec_C7_check_first_run_and_same_version "1.2.0" "t0"
    (fun _ => FetchOutcome.reject (JsValue.str "offline"))
    ⟨false, false, none, none⟩ (.ok "1.2.0") rfl

/-- C8: dismiss closes the modal, and when a release is held it persists
the version of that release — not the current application version — as the
marker, so a displayed version different from the current one is what
gets recorded. -/
theorem spec_C8_dismiss_persists_displayed_version (s : WhatsNewState)
    (marker : Option String) :
    (WhatsNewState.dismiss s marker).1.isOpen = false ∧
    (∀ r : ReleaseInfo, s.release = some r →
      (WhatsNewState.dismiss s marker).2 = some r.version) ∧
    (∀ (r : ReleaseInfo) (currentVersion : String), s.release = some r →
      r.version ≠ currentVersion →
      (WhatsNewState.dismiss s marker).2 ≠ some currentVersion) := by
  refine ⟨rfl, fun r hr => ?_, fun r cv hr hne => ?_⟩
  · simp [WhatsNewState.dismiss, hr]
  · simp [WhatsNewState.dismiss, hr]
    exact hne

/-- Concrete instantiation of spec_C8_dismiss_persists_displayed_version:
the displayed release 1.1.0 differs from the current version 1.2.0 and
it is 1.1.0 that gets persisted. -/
theorem spec_C8_dismiss_persists_displayed_version_witness :
    (WhatsNewState.dismiss ⟨true, false, some ⟨"1.1.0", "n", "b", "t", "u"⟩, none⟩
        (some "1.0.0")).1.isOpen = false ∧
    (WhatsNewState.dismiss ⟨true, false, some ⟨"1.1.0", "n", "b", "t", "u"⟩, none⟩
        (some "1.0.0")).2 = some "1.1.0" ∧
    (WhatsNewState.dismiss ⟨true, false, some ⟨"1.1.0", "n", "b", "t", "u"⟩, none⟩
        (some "1.0.0")).2 ≠ some "1.2.0" :=
  ⟨(spec_C8_dismiss_persists_displayed_version
      ⟨true, false, some ⟨"1.1.0", "n", "b", "t", "u"⟩, none⟩ (some "1.0.0")).1,
   (spec_C8_dismiss_persists_displayed_version
      ⟨true, false, some ⟨"1.1.0", "n", "b", "t", "u"⟩, none⟩ (some "1.0.0")).2.1
      ⟨"1.1.0", "n", "b", "t", "u"⟩ rfl,
   (spec_C8_dismiss_persists_displayed_version
      ⟨true, false, some ⟨"1.1.0", "n", "b", "t", "u"⟩, none⟩ (some "1.0.0")).2.2
      ⟨"1.1.0", "n", "b", "t", "u"⟩ "1.2.0" rfl (by decide)⟩

/-- C9: install is idempotent (a second install changes neither the
console functions nor the flag), uninstall while not installed changes
nothing, and install followed by uninstall restores all four console
entry points to the originals with isInterceptorInstalled false. -/
theorem spec_C9_interceptor_install_uninstall {F : Type}
    (originalConsole wrappers : ConsoleSlots F) (s : InterceptorState F) :
    (s.interceptorInstalled = true → installDebugInterceptor wrappers s = s) ∧
    (s.interceptorInstalled = false → uninstallDebugInterceptor originalConsole s = s) ∧
    ((uninstallDebugInterceptor originalConsole
        (installDebugInterceptor wrappers s)).console.log = originalConsole.log ∧
     (uninstallDebugInterceptor originalConsole
        (installDebugInterceptor wrappers s)).console.warn = originalConsole.warn ∧
     (uninstallDebugInterceptor originalConsole
        (installDebugInterceptor wrappers s)).console.error = originalConsole.error ∧
     (uninstallDebugInterceptor originalConsole
        (installDebugInterceptor wrappers s)).console.info = originalConsole.info) ∧
    isInterceptorInstalled
      (uninstallDebugInterceptor originalConsole
        (installDebugInterceptor wrappers s)) = false := by
  refine ⟨fun h => ?_, fun h => ?_, ?_, ?_⟩
  · simp [installDebugInterceptor, h]
  · simp [uninstallDebugInterceptor, h]
  · cases hins : s.interceptorInstalled <;>
      simp [installDebugInterceptor, uninstallDebugInterceptor, hins]
  · cases hins : s.interceptorInstalled <;>
      simp [installDebugInterceptor, uninstallDebugInterceptor,
        isInterceptorInstalled, hins]

/-- Concrete instantiation of spec_C9_interceptor_install_uninstall. -/
theorem spec_C9_interceptor_install_uninstall_witness :
    ((true : Bool) = true →
      installDebugInterceptor (F := Nat) ⟨10, 11, 12, 13⟩ ⟨⟨10, 11, 12, 13⟩, true⟩ =
        ⟨⟨10, 11, 12, 13⟩, true⟩) ∧
    ((true : Bool) = false →
      uninstallDebugInterceptor (F := Nat) ⟨0, 1, 2, 3⟩ ⟨⟨10, 11, 12, 13⟩, true⟩ =
        ⟨⟨10, 11, 12, 13⟩, true⟩) ∧
    ((uninstallDebugInterceptor (F := Nat) ⟨0, 1, 2, 3⟩
        (installDebugInterceptor ⟨10, 11, 12, 13⟩ ⟨⟨10, 11, 12, 13⟩, true⟩)).console.log = 0 ∧
     (uninstallDebugInterceptor (F := Nat) ⟨0, 1, 2, 3⟩
        (installDebugInterceptor ⟨10, 11, 12, 13⟩ ⟨⟨10, 11, 12, 13⟩, true⟩)).console.warn = 1 ∧
     (uninstallDebugInterceptor (F := Nat) ⟨0, 1, 2, 3⟩
        (installDebugInterceptor ⟨10, 11, 12, 13⟩ ⟨⟨10, 11, 12, 13⟩, true⟩)).console.error = 2 ∧
     (uninstallDebugInterceptor (F := Nat) ⟨0, 1, 2, 3⟩
        (installDebugInterceptor ⟨10, 11, 12, 13⟩ ⟨⟨10, 11, 12, 13⟩, true⟩)).console.info = 3) ∧
    isInterceptorInstalled
      (uninstallDebugInterceptor (F := Nat) ⟨0, 1, 2, 3⟩
        (installDebugInterceptor ⟨10, 11, 12, 13⟩ ⟨⟨10, 11, 12, 13⟩, true⟩)) = false :=
  spec_C9_interceptor_install_uninstall ⟨0, 1, 2, 3⟩ ⟨10, 11, 12, 13⟩ ⟨⟨10, 11, 12, 13⟩, true⟩

/-- C10: a successful update, delete, or toggleGlobal keyed by an id
absent from the cache leaves the cached list pointwise unchanged. -/
theorem spec_C10_absent_id_mutations_keep_cache (s : McpLibraryState) (id : Nat)
    (req : CreateMcpRequest) (m : Mcp) (enabled : Bool)
    (h : id ∉ s.mcps.map (fun x => x.id)) :
    (McpLibraryState.update s id req (.ok m)).2.mcps = s.mcps ∧
    (McpLibraryState.delete s id (.ok ())).2.mcps = s.mcps ∧
    (McpLibraryState.toggleGlobal s id enabled (.ok ())).2.mcps = s.mcps := by
  have hne : ∀ x ∈ s.mcps, x.id ≠ id := by
    intro x hx hxe
    exact h (hxe ▸ List.mem_map_of_mem (fun y => y.id) hx)
  refine ⟨?_, ?_, ?_⟩
  · simp only [McpLibraryState.update]
    exact map_eq_self_of_fixed _ s.mcps (fun x hx => if_neg (hne x hx))
  · simp only [McpLibraryState.delete]
    exact List.filter_eq_self.mpr (fun x hx => decide_eq_true (hne x hx))
  · simp only [McpLibraryState.toggleGlobal]
    exact map_eq_self_of_fixed _ s.mcps (fun x hx => if_neg (hne x hx))

/-- Concrete instantiation of spec_C10_absent_id_mutations_keep_cache. -/
theorem spec_C10_absent_id_mutations_keep_cache_witness :
    (7 ∉ ([⟨1, "a", none, McpType.stdio, none, false, false⟩] : List Mcp).map (fun x => x.id)) ∧
    ((McpLibraryState.update
        ⟨[⟨1, "a", none, McpType.stdio, none, false, false⟩], false, none, "", McpTypeFilter.all⟩
        7 ⟨"r"⟩ (.ok ⟨7, "n", none, McpType.sse, none, false, false⟩)).2.mcps =
      [⟨1, "a", none, McpType.stdio, none, false, false⟩]) ∧
    ((McpLibraryState.delete
        ⟨[⟨1, "a", none, McpType.stdio, none, false, false⟩], false, none, "", McpTypeFilter.all⟩
        7 (.ok ())).2.mcps =
      [⟨1, "a", none, McpType.stdio, none, false, false⟩]) ∧
    ((McpLibraryState.toggleGlobal
        ⟨[⟨1, "a", none, McpType.stdio, none, false, false⟩], false, none, "", McpTypeFilter.all⟩
        7 true (.ok ())).2.mcps =
      [⟨1, "a", none, McpType.stdio, none, false, false⟩]) := by
  refine ⟨by decide, ?_⟩
  exact spec_C10_absent_id_mutations_keep_cache
    ⟨[⟨1, "a", none, McpType.stdio, none, false, false⟩], false, none, "", McpTypeFilter.all⟩
    7 ⟨"r"⟩ ⟨7, "n", none, McpType.sse, none, false, false⟩ true (by decide)
